import Mathlib

/-!
Verification development for the 2D particle/rigid-body sandbox
(`src/Game/main.cpp` plus the `Entity.h` declarations).

Floating-point scalars (`float`/`double`) are modelled as exact rationals
(`ℚ`): every claim here is about control flow, field mutation and algebraic
form of the updates, not about rounding.  Constants from the absent
`Common.h` (`GRAVITY`, `SCREEN_WIDTH`, `SCREEN_HEIGHT`, `TICKS_PER_SECOND`)
are fixed to nominal values; no theorem below depends on the particular
numbers, only (for the gravity constant) on its being nonzero.

The bodies of `Entity::Update`, `Entity::CheckCollisions` and the
shape-specific `Collision` routines live in `Entity.cpp`, which is not part
of the sources; they are modelled from the spec (section 4.1 and 4.2), and
each such definition carries a doc comment saying so.
-/

namespace ParticleSim

/-- 2D vector of rationals, mirroring `Vector2` (an (x, y) pair supporting
componentwise algebra). -/
structure Vector2 where
  x : ℚ
  y : ℚ
  deriving DecidableEq, Repr

namespace Vector2

instance : Zero Vector2 := ⟨⟨0, 0⟩⟩

instance : Add Vector2 := ⟨fun a b => ⟨a.x + b.x, a.y + b.y⟩⟩

instance : Sub Vector2 := ⟨fun a b => ⟨a.x - b.x, a.y - b.y⟩⟩

/-- Scalar multiple of a vector. -/
def scale (v : Vector2) (c : ℚ) : Vector2 := ⟨v.x * c, v.y * c⟩

/-- Dot product. -/
def dot (a b : Vector2) : ℚ := a.x * b.x + a.y * b.y

/-- Squared Euclidean distance between two points (the collision tests
compare squared lengths so that everything stays rational). -/
def dist2 (a b : Vector2) : ℚ := (b.x - a.x) ^ 2 + (b.y - a.y) ^ 2

end Vector2

/-- The `EntityType` tag from `Common.h` / `Entity.h` (`entities[i]->type`). -/
inductive EntityType where
  | CIRCLE
  | BOX
  deriving DecidableEq, Repr

/-- Modelled from the spec: `Common.h` is absent; the positive gravitational
constant `GRAVITY`. Only its being nonzero matters to any theorem. -/
def GRAVITY : ℚ := 981 / 100

/-- Modelled from the spec: `Common.h` is absent; nominal screen width. -/
def SCREEN_WIDTH : ℕ := 800

/-- Modelled from the spec: `Common.h` is absent; nominal screen height. -/
def SCREEN_HEIGHT : ℕ := 600

/-- Modelled from the spec: `Common.h` is absent; fixed simulation rate. -/
def TICKS_PER_SECOND : ℚ := 60

/-- The `Entity` state of `Entity.h`: position, velocity, accumulated force,
rotation, mass, shape tag, the kinematic flag (`isKinematic()`, the negation
of the protected `usePhysics`), the material coefficients with their declared
defaults, and the shape payload (`radius` for circles, `width`/`length` for
boxes).  The cosmetic `color` array and the mesh handle are not modelled. -/
structure Entity where
  position : Vector2
  velocity : Vector2
  force : Vector2
  rotation : ℚ
  mass : ℚ
  type : EntityType
  kinematic : Bool := false
  bounciness : ℚ := 17 / 20
  friction : ℚ := 1 / 20
  deactivation : ℚ := 1 / 20
  radius : ℚ := 0
  width : ℚ := 0
  length : ℚ := 0
  deriving DecidableEq, Repr

/-- Modelled from the spec: the `EntityCircle` constructor body is in the
absent `Entity.cpp`; a circle entity at `p`, at rest, non-kinematic
(`usePhysics = true` default), with nominal unit mass and radius 20. -/
def mkCircle (p : Vector2) : Entity :=
  { position := p, velocity := 0, force := 0, rotation := 0, mass := 1,
    type := EntityType.CIRCLE, radius := 20 }

/-- Modelled from the spec: the `EntityBox` constructor body is in the
absent `Entity.cpp`; a box entity at `p`, at rest, non-kinematic, with
nominal unit mass and half-extents 20. -/
def mkBox (p : Vector2) : Entity :=
  { position := p, velocity := 0, force := 0, rotation := 0, mass := 1,
    type := EntityType.BOX, width := 20, length := 20 }

/-- One tick's worth of the external input layer, as `processInput` reads it:
mouse buttons 1/2, the raw GLFW cursor position (before the
`ypos = SCREEN_HEIGHT - ypos` flip on line 155), and the held keys. -/
structure Input where
  mouse1 : Bool
  mouse2 : Bool
  cursorX : ℚ
  cursorY : ℚ
  keyW : Bool
  keyS : Bool
  keyA : Bool
  keyD : Bool
  keyRight : Bool
  keyLeft : Bool
  deriving DecidableEq, Repr

namespace Input

/-- The all-off input: no buttons, no keys, cursor at the origin. -/
def none : Input :=
  { mouse1 := false, mouse2 := false, cursorX := 0, cursorY := 0,
    keyW := false, keyS := false, keyA := false, keyD := false,
    keyRight := false, keyLeft := false }

end Input

/-- The cursor position in world coordinates: `processInput` flips the GLFW
y coordinate (`ypos = SCREEN_HEIGHT - ypos`, main.cpp line 155) before using
it as a spawn position. -/
def worldCursor (inp : Input) : Vector2 :=
  ⟨inp.cursorX, (SCREEN_HEIGHT : ℚ) - inp.cursorY⟩

/-- The `movement` vector of `processInput` (main.cpp lines 171-185):
W sets y to 5 (taking priority over S, which sets -5); A sets x to -5
(taking priority over D, which sets 5). -/
def movement (inp : Input) : Vector2 :=
  ⟨if inp.keyA then -5 else if inp.keyD then 5 else 0,
   if inp.keyW then 5 else if inp.keyS then -5 else 0⟩

/-- The `rotation` scalar of `processInput` (main.cpp lines 187-192):
RIGHT sets 1 (taking priority over LEFT, which sets -1). -/
def rotationDelta (inp : Input) : ℚ :=
  if inp.keyRight then 1 else if inp.keyLeft then -1 else 0

/-- The spawn step of `processInput` (main.cpp lines 157-164): a primary
click appends a non-kinematic circle at the (flipped) cursor position; an
`else if` means a secondary click appends a kinematic circle only when no
primary click occurred this tick. -/
def spawnStep (inp : Input) (es : List Entity) : List Entity :=
  if inp.mouse1 then es ++ [mkCircle (worldCursor inp)]
  else if inp.mouse2 then es ++ [{ mkCircle (worldCursor inp) with kinematic := true }]
  else es

/-- The per-entity body of the force loop of `processInput` (main.cpp lines
194-202): non-kinematic entities accumulate
`force.y += movement.y * -GRAVITY * mass` and `force.x += movement.x * mass`;
every BOX entity (kinematic or not) then gets `rotation += rotation delta`. -/
def forceStep (inp : Input) (e : Entity) : Entity :=
  let e1 := if e.kinematic then e else
    { e with force := ⟨e.force.x + (movement inp).x * e.mass,
                       e.force.y + (movement inp).y * -GRAVITY * e.mass⟩ }
  if e1.type = EntityType.BOX then { e1 with rotation := e1.rotation + rotationDelta inp }
  else e1

/-- The function `processInput` (main.cpp lines 151-203), the per-tick input step: spawn
from mouse clicks, then run the force/rotation loop over all entities
(including any entity just spawned, since `push_back` precedes the loop). -/
def processInput (inp : Input) (es : List Entity) : List Entity :=
  (spawnStep inp es).map (forceStep inp)

/-- Modelled from the spec: `Entity::Update` lives in the absent
`Entity.cpp`; spec section 4.1.  Kinematic entities skip the whole update.
Otherwise: acceleration = force / mass; velocity += acceleration; damping
`velocity *= (1 - friction)`; if the speed is below `deactivation` the
velocity is zeroed (tested in squared form to stay rational); position +=
velocity; force is reset to zero.  The spec's defensive velocity clamp has
no stated bound and is omitted. -/
def update (e : Entity) : Entity :=
  if e.kinematic then e
  else
    let acc : Vector2 := ⟨e.force.x / e.mass, e.force.y / e.mass⟩
    let v1 := e.velocity + acc
    let v2 := v1.scale (1 - e.friction)
    let v3 := if v2.x ^ 2 + v2.y ^ 2 < e.deactivation ^ 2 then (0 : Vector2) else v2
    { e with velocity := v3, position := e.position + v3, force := 0 }

/-- Clamp a scalar to the interval [lo, hi]. -/
def clampTo (v lo hi : ℚ) : ℚ := max lo (min v hi)

/-- Modelled from the spec: circle-box narrow phase (spec section 4.2);
clamp the circle center to the box extents (width/length read as
half-extents) and collide iff the nearest point is strictly closer than the
radius (squared form). -/
def circleBoxHit (c b : Entity) : Bool :=
  let nearest : Vector2 :=
    ⟨clampTo c.position.x (b.position.x - b.width) (b.position.x + b.width),
     clampTo c.position.y (b.position.y - b.length) (b.position.y + b.length)⟩
  decide (Vector2.dist2 c.position nearest < c.radius ^ 2)

/-- Modelled from the spec: pairwise collision detection by shape pair
(spec section 4.2): circle-circle iff center distance < sum of radii
(squared form); circle-box via the clamped nearest point; box-box as AABB
overlap on both axes. -/
def collides (a b : Entity) : Bool :=
  match a.type, b.type with
  | EntityType.CIRCLE, EntityType.CIRCLE =>
      decide (Vector2.dist2 a.position b.position < (a.radius + b.radius) ^ 2)
  | EntityType.CIRCLE, EntityType.BOX => circleBoxHit a b
  | EntityType.BOX, EntityType.CIRCLE => circleBoxHit b a
  | EntityType.BOX, EntityType.BOX =>
      decide (|a.position.x - b.position.x| < a.width + b.width ∧
              |a.position.y - b.position.y| < a.length + b.length)

/-- Inverse mass: 0 for kinematic entities (infinite mass), 1/mass
otherwise (spec section 4.2, step 3). -/
def invMass (e : Entity) : ℚ := if e.kinematic then 0 else 1 / e.mass

/-- Modelled from the spec: contact resolution for one pair (spec section
4.2, steps 1-4), given a collision normal `nrm` and a penetration depth
`d`.  Two kinematic entities (zero total inverse mass) are skipped.  The
positional correction splits `d` in proportion to inverse mass; a
separating pair (`vRel > 0`) receives no impulse; otherwise the impulse
`j = -(1 + e) * vRel / (invA + invB)` (with `e` the minimum of the two
bounciness values) is applied through the inverse masses.  The cosmetic
per-shape `Collision` hook mutates no physical state and is not modelled. -/
def resolvePair (nrm : Vector2) (d : ℚ) (a b : Entity) : Entity × Entity :=
  let invA := invMass a
  let invB := invMass b
  let total := invA + invB
  if total = 0 then (a, b)
  else
    let a1 := { a with position := a.position - nrm.scale (d * invA / total) }
    let b1 := { b with position := b.position + nrm.scale (d * invB / total) }
    let vRel := Vector2.dot (b1.velocity - a1.velocity) nrm
    if 0 < vRel then (a1, b1)
    else
      let rest := min a.bounciness b.bounciness
      let j := -(1 + rest) * vRel / total
      ({ a1 with velocity := a1.velocity - nrm.scale (j * invA) },
       { b1 with velocity := b1.velocity + nrm.scale (j * invB) })

/-- A per-pair normal/penetration oracle.  The actual normal and depth
computations need square roots; since `Entity.cpp` is absent every theorem
below quantifies over an arbitrary choice, which covers whatever the real
implementation computes. -/
def Oracle : Type := ℕ → ℕ → Vector2 × ℚ

/-- One colliding pair (`i` the calling entity, `j` the other): if both
indices exist, are distinct and the shapes overlap, the pair is resolved in
place with the oracle's normal and depth. -/
def collideOne (orc : Oracle) (i j : ℕ) (es : List Entity) : List Entity :=
  if i = j then es
  else
    match es[i]?, es[j]? with
    | some a, some b =>
        if collides a b then
          let nd := orc i j
          let ab := resolvePair nd.1 nd.2 a b
          (es.set i ab.1).set j ab.2
        else es
    | _, _ => es

/-- Modelled from the spec: the inner loop of `Entity::CheckCollisions`
(the calling entity `i` tested against every other entity, spec section
4.2); `innerLoop orc i n es` has tested `i` against `j = 0, …, n-1` in
order. -/
def innerLoop (orc : Oracle) (i : ℕ) : ℕ → List Entity → List Entity
  | 0, es => es
  | n + 1, es => collideOne orc i n (innerLoop orc i n es)

/-- The outer loop of main.cpp lines 322-324: `CheckCollisions` is called
once per entity; `outerLoop orc n es` has run it for the calling entities
`i = 0, …, n-1` in order. -/
def outerLoop (orc : Oracle) : ℕ → List Entity → List Entity
  | 0, es => es
  | n + 1, es =>
      let es1 := outerLoop orc n es
      innerLoop orc n es1.length es1

/-- The full collision phase of one tick: every entity checks collisions
against the whole collection. -/
def collidePhase (orc : Oracle) (es : List Entity) : List Entity :=
  outerLoop orc es.length es

/-- One full fixed tick (the body of the `while (deltaTime >= 1.0)` loop,
main.cpp lines 313-327): process input (forces and spawning), then
`Update()` on every entity, then — only after every entity has integrated —
`CheckCollisions` once per entity over the whole collection. -/
def tick (inp : Input) (orc : Oracle) (es : List Entity) : List Entity :=
  collidePhase orc ((processInput inp es).map update)

/-- The run `runTicksFrom inps orcs t n es` performs `n` consecutive full ticks
starting at tick counter `t`, drawing each tick's input and oracle from the
streams. -/
def runTicksFrom (inps : ℕ → Input) (orcs : ℕ → Oracle) (t : ℕ) :
    ℕ → List Entity → List Entity
  | 0, es => es
  | n + 1, es => runTicksFrom inps orcs (t + 1) n (tick (inps t) (orcs t) es)

/-- The `while (deltaTime >= 1.0)` loop of main.cpp lines 313-327: while the
accumulator is at least 1, consume one full tick and decrement the
accumulator by 1.  Returns the entity list, the tick counter and the
left-over accumulator.  The recursion terminates because the floor of the
accumulator drops by one each iteration. -/
def simLoop (inps : ℕ → Input) (orcs : ℕ → Oracle) (t : ℕ) (es : List Entity)
    (acc : ℚ) : List Entity × ℕ × ℚ :=
  if h : 1 ≤ acc then
    simLoop inps orcs (t + 1) (tick (inps t) (orcs t) es) (acc - 1)
  else (es, t, acc)
termination_by ⌊acc⌋.toNat
decreasing_by
  have h1 : (1 : ℤ) ≤ ⌊acc⌋ := Int.le_floor.mpr (by exact_mod_cast h)
  have h2 : ⌊acc - 1⌋ = ⌊acc⌋ - 1 := by exact_mod_cast Int.floor_sub_int acc 1
  omega

/-- One frame of the main loop (main.cpp lines 306-327): the elapsed wall
time times `TICKS_PER_SECOND` is added to the accumulator, then the
while-loop consumes whole ticks. -/
def frameStep (inps : ℕ → Input) (orcs : ℕ → Oracle) (dt acc : ℚ) (t : ℕ)
    (es : List Entity) : List Entity × ℕ × ℚ :=
  simLoop inps orcs t es (acc + dt * TICKS_PER_SECOND)

/-- The seeded scene of main.cpp lines 296-300: one box then two circles,
positions drawn from the `rand()` stream `r` (the six calls are numbered in
argument order; C++ leaves the evaluation order inside one call expression
unspecified, and no theorem depends on it).  `0.8f` is taken as the exact
rational 4/5. -/
def seedEntities (r : ℕ → ℕ) : List Entity :=
  [mkBox ⟨((r 0 % SCREEN_WIDTH : ℕ) : ℚ) * (4 / 5), ((r 1 % SCREEN_HEIGHT : ℕ) : ℚ) - 200⟩,
   mkCircle ⟨((r 2 % SCREEN_WIDTH : ℕ) : ℚ) - 20, ((r 3 % SCREEN_HEIGHT : ℕ) : ℚ) - 20⟩,
   mkCircle ⟨((r 4 % SCREEN_WIDTH : ℕ) : ℚ) - 20, ((r 5 % SCREEN_HEIGHT : ℕ) : ℚ) - 20⟩]

/-- Run the simulation for `n` full ticks from tick counter 0. -/
def runSimulation (n : ℕ) (inps : ℕ → Input) (orcs : ℕ → Oracle)
    (es : List Entity) : List Entity :=
  runTicksFrom inps orcs 0 n es

/-- The final transforms the render layer reads: the position of every
entity, in collection order. -/
def finalPositions (es : List Entity) : List Vector2 :=
  es.map Entity.position

/-- Kinematic preservation between two entity collections: every kinematic
entry of `es` is still present at the same index in `es'`, with the same
position and velocity, and still kinematic.  (`push_back` only appends, so
indices of existing entities are stable across a tick.) -/
def KinPres (es es' : List Entity) : Prop :=
  ∀ (i : ℕ) (e : Entity), es[i]? = some e → e.kinematic = true →
    ∃ e', es'[i]? = some e' ∧ e'.position = e.position ∧
      e'.velocity = e.velocity ∧ e'.kinematic = true

/-- A concrete kinematic circle (the secondary-click spawn), used to
instantiate the universally quantified theorems below. -/
def kinAnchor : Entity := { mkCircle ⟨0, 0⟩ with kinematic := true }

/-- A concrete non-kinematic circle, used to instantiate the universally
quantified theorems below. -/
def freeBall : Entity := mkCircle ⟨1, 2⟩

/-- The trivial normal/penetration oracle (zero vector, zero depth). -/
def zeroOracle : Oracle := fun _ _ => (0, 0)

/-- A tick with only the primary mouse button pressed, cursor at (10, 20). -/
def primaryClick : Input := { Input.none with mouse1 := true, cursorX := 10, cursorY := 20 }

/-- A tick with only the secondary mouse button pressed, cursor at (10, 20). -/
def secondaryClick : Input := { Input.none with mouse2 := true, cursorX := 10, cursorY := 20 }

/-- A tick with both mouse buttons pressed at once. -/
def bothClick : Input := { Input.none with mouse1 := true, mouse2 := true }

/-! ## Helper lemmas -/

@[simp] theorem Vector2.zero_x : (0 : Vector2).x = 0 := rfl

@[simp] theorem Vector2.zero_y : (0 : Vector2).y = 0 := rfl

theorem Vector2.scale_zero (v : Vector2) : v.scale 0 = 0 := by
  show Vector2.mk (v.x * 0) (v.y * 0) = 0
  rw [mul_zero, mul_zero]
  rfl

theorem Vector2.add_zero' (v : Vector2) : v + 0 = v := by
  show Vector2.mk (v.x + 0) (v.y + 0) = v
  simp

theorem Vector2.sub_zero' (v : Vector2) : v - 0 = v := by
  show Vector2.mk (v.x - 0) (v.y - 0) = v
  simp

theorem forceStep_position (inp : Input) (e : Entity) :
    (forceStep inp e).position = e.position := by
  simp only [forceStep]
  split <;> split <;> rfl

theorem forceStep_velocity (inp : Input) (e : Entity) :
    (forceStep inp e).velocity = e.velocity := by
  simp only [forceStep]
  split <;> split <;> rfl

theorem forceStep_kinematic (inp : Input) (e : Entity) :
    (forceStep inp e).kinematic = e.kinematic := by
  simp only [forceStep]
  split <;> split <;> rfl

theorem forceStep_type (inp : Input) (e : Entity) :
    (forceStep inp e).type = e.type := by
  simp only [forceStep]
  split <;> split <;> rfl

theorem forceStep_mass (inp : Input) (e : Entity) :
    (forceStep inp e).mass = e.mass := by
  simp only [forceStep]
  split <;> split <;> rfl

theorem forceStep_rotation (inp : Input) (e : Entity) :
    (forceStep inp e).rotation =
      e.rotation + (if e.type = EntityType.BOX then rotationDelta inp else 0) := by
  simp only [forceStep]
  by_cases hk : e.kinematic <;> by_cases ht : e.type = EntityType.BOX <;>
    simp [hk, ht]

theorem forceStep_force_of_kin (inp : Input) (e : Entity) (h : e.kinematic = true) :
    (forceStep inp e).force = e.force := by
  by_cases ht : e.type = EntityType.BOX <;> simp [forceStep, h, ht]

theorem forceStep_force_of_not_kin (inp : Input) (e : Entity)
    (h : e.kinematic = false) :
    (forceStep inp e).force =
      ⟨e.force.x + (movement inp).x * e.mass,
       e.force.y + (movement inp).y * -GRAVITY * e.mass⟩ := by
  by_cases ht : e.type = EntityType.BOX <;> simp [forceStep, h, ht]

theorem spawnStep_getElem (inp : Input) (es : List Entity) (i : ℕ)
    (h : i < es.length) : (spawnStep inp es)[i]? = es[i]? := by
  unfold spawnStep
  split
  · exact List.getElem?_append_left h
  · split
    · exact List.getElem?_append_left h
    · rfl

theorem processInput_getElem (inp : Input) (es : List Entity) (i : ℕ) (e : Entity)
    (h : es[i]? = some e) :
    (processInput inp es)[i]? = some (forceStep inp e) := by
  have hlt : i < es.length := by
    by_contra hge
    rw [List.getElem?_eq_none (by omega)] at h
    exact Option.noConfusion h
  unfold processInput
  rw [List.getElem?_map, spawnStep_getElem inp es i hlt, h]
  rfl

/-! ## Claim theorems -/

/-- C7: the per-tick input step (`processInput`) leaves a kinematic
entity's force, velocity and position unchanged, while rotation-key input
is still applied to the rotation of every BOX entity (kinematic or not) and
to no CIRCLE entity. -/
theorem C7_kinematic_input_step (inp : Input) (es : List Entity) (i : ℕ)
    (e : Entity) (h : es[i]? = some e) :
    ∃ e', (processInput inp es)[i]? = some e' ∧
      (e.kinematic = true →
        e'.force = e.force ∧ e'.velocity = e.velocity ∧ e'.position = e.position) ∧
      (e.type = EntityType.BOX → e'.rotation = e.rotation + rotationDelta inp) ∧
      (e.type = EntityType.CIRCLE → e'.rotation = e.rotation) := by
  refine ⟨forceStep inp e, processInput_getElem inp es i e h, ?_, ?_, ?_⟩
  · intro hk
    exact ⟨forceStep_force_of_kin inp e hk, forceStep_velocity inp e,
      forceStep_position inp e⟩
  · intro ht
    rw [forceStep_rotation, if_pos ht]
  · intro ht
    rw [forceStep_rotation, if_neg (by simp [ht]), add_zero]

/-- Witness for C7 at a concrete kinematic circle and the all-off input. -/
theorem C7_kinematic_input_step_witness :
    ∃ e', (processInput Input.none [kinAnchor])[0]? = some e' ∧
      (kinAnchor.kinematic = true →
        e'.force = kinAnchor.force ∧ e'.velocity = kinAnchor.velocity ∧
        e'.position = kinAnchor.position) ∧
      (kinAnchor.type = EntityType.BOX →
        e'.rotation = kinAnchor.rotation + rotationDelta Input.none) ∧
      (kinAnchor.type = EntityType.CIRCLE → e'.rotation = kinAnchor.rotation) :=
  C7_kinematic_input_step Input.none [kinAnchor] 0 kinAnchor rfl

/-- C9: every non-kinematic entity receives the same input-driven force
increments, `force.x += movement.x * mass` and
`force.y += movement.y * -GRAVITY * mass`, for the single global movement
vector of the tick. -/
theorem C9_uniform_input_force (inp : Input) (es : List Entity) (i : ℕ)
    (e : Entity) (h : es[i]? = some e) (hnk : e.kinematic = false) :
    ∃ e', (processInput inp es)[i]? = some e' ∧
      e'.force.x = e.force.x + (movement inp).x * e.mass ∧
      e'.force.y = e.force.y + (movement inp).y * -GRAVITY * e.mass :=
  ⟨forceStep inp e, processInput_getElem inp es i e h,
    by rw [forceStep_force_of_not_kin inp e hnk],
    by rw [forceStep_force_of_not_kin inp e hnk]⟩

/-- Witness for C9 at a concrete non-kinematic circle. -/
theorem C9_uniform_input_force_witness :
    ∃ e', (processInput Input.none [freeBall])[0]? = some e' ∧
      e'.force.x = freeBall.force.x + (movement Input.none).x * freeBall.mass ∧
      e'.force.y = freeBall.force.y + (movement Input.none).y * -GRAVITY * freeBall.mass :=
  C9_uniform_input_force Input.none [freeBall] 0 freeBall rfl rfl

/-- C3 (amended): the per-tick force-accumulation step adds
`movement.y * -GRAVITY * mass` to a non-kinematic entity's `force.y` — the
gravitational term is scaled by the vertical movement input, so nothing at
all is added while no vertical movement key is held. -/
theorem C3_gravity_scaled_by_input (inp : Input) (es : List Entity) (i : ℕ)
    (e : Entity) (h : es[i]? = some e) (hnk : e.kinematic = false) :
    ∃ e', (processInput inp es)[i]? = some e' ∧
      e'.force.y = e.force.y + (movement inp).y * -GRAVITY * e.mass ∧
      ((movement inp).y = 0 → e'.force.y = e.force.y) := by
  refine ⟨forceStep inp e, processInput_getElem inp es i e h, ?_, ?_⟩
  · rw [forceStep_force_of_not_kin inp e hnk]
  · intro h0
    rw [forceStep_force_of_not_kin inp e hnk]
    simp [h0]

/-- Witness for the amended C3 at a concrete non-kinematic circle. -/
theorem C3_gravity_scaled_by_input_witness :
    ∃ e', (processInput Input.none [freeBall])[0]? = some e' ∧
      e'.force.y = freeBall.force.y + (movement Input.none).y * -GRAVITY * freeBall.mass ∧
      ((movement Input.none).y = 0 → e'.force.y = freeBall.force.y) :=
  C3_gravity_scaled_by_input Input.none [freeBall] 0 freeBall rfl rfl

/-- Counterexample to C3 as stated: with no keys held, the input step adds
nothing to a non-kinematic entity's `force.y`, whereas the claim demands the
(nonzero) increment `-GRAVITY * mass`. -/
theorem C3_counterexample :
    (processInput Input.none [mkCircle ⟨0, 0⟩]).map (fun e => e.force.y) = [0] ∧
    (0 : ℚ) ≠ (mkCircle ⟨0, 0⟩).force.y + -GRAVITY * (mkCircle ⟨0, 0⟩).mass := by
  constructor
  · simp [processInput, spawnStep, forceStep, mkCircle, movement, Input.none]
  · simp [mkCircle, GRAVITY]

/-- The entities a tick appends beyond the original collection: the spawn
step is the only place `processInput` can grow the list. -/
theorem spawnStep_drop (inp : Input) (es : List Entity) :
    (spawnStep inp es).drop es.length =
      (if inp.mouse1 then [mkCircle (worldCursor inp)]
       else if inp.mouse2 then [{ mkCircle (worldCursor inp) with kinematic := true }]
       else []) := by
  unfold spawnStep
  split
  · exact List.drop_left es _
  · split
    · exact List.drop_left es _
    · exact List.drop_length es

theorem processInput_drop (inp : Input) (es : List Entity) :
    (processInput inp es).drop es.length =
      ((spawnStep inp es).drop es.length).map (forceStep inp) := by
  unfold processInput
  rw [List.map_drop]

theorem spawnStep_length_of_mouse1 (inp : Input) (es : List Entity)
    (h : inp.mouse1 = true) : (spawnStep inp es).length = es.length + 1 := by
  unfold spawnStep
  rw [if_pos h]
  simp

/-- C6 (amended): a primary click appends one non-kinematic circle at the
world cursor position; a secondary click appends one kinematic circle at the
world cursor position, but only when no primary click occurred the same
tick (the source uses `else if`). -/
theorem C6_click_spawn (inp : Input) (es : List Entity) :
    (inp.mouse1 = true →
      (processInput inp es).length = es.length + 1 ∧
      ∃ e', (processInput inp es)[es.length]? = some e' ∧
        e'.kinematic = false ∧ e'.type = EntityType.CIRCLE ∧
        e'.position = worldCursor inp) ∧
    (inp.mouse1 = false → inp.mouse2 = true →
      (processInput inp es).length = es.length + 1 ∧
      ∃ e', (processInput inp es)[es.length]? = some e' ∧
        e'.kinematic = true ∧ e'.type = EntityType.CIRCLE ∧
        e'.position = worldCursor inp) := by
  constructor
  · intro h1
    have hlen : (processInput inp es).length = es.length + 1 := by
      unfold processInput
      rw [List.length_map, spawnStep_length_of_mouse1 inp es h1]
    refine ⟨hlen, forceStep inp (mkCircle (worldCursor inp)), ?_, ?_, ?_, ?_⟩
    · unfold processInput spawnStep
      rw [if_pos h1, List.map_append]
      rw [show es.length = (List.map (forceStep inp) es).length from (List.length_map es _).symm]
      exact List.getElem?_concat_length _ _
    · rw [forceStep_kinematic]
      rfl
    · rw [forceStep_type]
      rfl
    · rw [forceStep_position]
      rfl
  · intro h1 h2
    have hlen : (processInput inp es).length = es.length + 1 := by
      unfold processInput spawnStep
      rw [if_neg (by simp [h1]), if_pos h2]
      simp
    refine ⟨hlen,
      forceStep inp { mkCircle (worldCursor inp) with kinematic := true }, ?_, ?_, ?_, ?_⟩
    · unfold processInput spawnStep
      rw [if_neg (by simp [h1]), if_pos h2, List.map_append]
      rw [show es.length = (List.map (forceStep inp) es).length from (List.length_map es _).symm]
      exact List.getElem?_concat_length _ _
    · rw [forceStep_kinematic]
    · rw [forceStep_type]
      rfl
    · rw [forceStep_position]
      rfl

/-- Witness for the amended C6: a primary click on an empty collection. -/
theorem C6_click_spawn_witness :
    (primaryClick.mouse1 = true →
      (processInput primaryClick ([] : List Entity)).length = ([] : List Entity).length + 1 ∧
      ∃ e', (processInput primaryClick ([] : List Entity))[([] : List Entity).length]? = some e' ∧
        e'.kinematic = false ∧ e'.type = EntityType.CIRCLE ∧
        e'.position = worldCursor primaryClick) ∧
    (primaryClick.mouse1 = false → primaryClick.mouse2 = true →
      (processInput primaryClick ([] : List Entity)).length = ([] : List Entity).length + 1 ∧
      ∃ e', (processInput primaryClick ([] : List Entity))[([] : List Entity).length]? = some e' ∧
        e'.kinematic = true ∧ e'.type = EntityType.CIRCLE ∧
        e'.position = worldCursor primaryClick) :=
  C6_click_spawn primaryClick []

/-- Counterexample to C6 as stated: on a tick where the secondary button is
clicked together with the primary one, no kinematic entity is appended —
the `else if` lets the primary spawn win. -/
theorem C6_counterexample :
    bothClick.mouse2 = true ∧
    (processInput bothClick []).length = 1 ∧
    ∀ e ∈ processInput bothClick [], e.kinematic = false := by
  refine ⟨rfl, rfl, ?_⟩
  intro e he
  have : processInput bothClick [] =
      [forceStep bothClick (mkCircle (worldCursor bothClick))] := rfl
  rw [this] at he
  simp at he
  rw [he, forceStep_kinematic]
  rfl

/-- C10: every entity spawned by mouse input is a circle (boxes come only
from the seeded scene), and a primary click appends exactly one entity,
which is non-kinematic — so when both buttons are pressed only the primary
(non-kinematic) spawn occurs. -/
theorem C10_input_spawns_circles (inp : Input) (es : List Entity) :
    (∀ e ∈ (processInput inp es).drop es.length, e.type = EntityType.CIRCLE) ∧
    (inp.mouse1 = true →
      (processInput inp es).length = es.length + 1 ∧
      ∀ e ∈ (processInput inp es).drop es.length, e.kinematic = false) := by
  have hdrop := processInput_drop inp es
  rw [spawnStep_drop] at hdrop
  constructor
  · intro e he
    rw [hdrop] at he
    by_cases h1 : inp.mouse1
    · rw [if_pos h1] at he
      simp at he
      rw [he, forceStep_type]
      rfl
    · rw [if_neg h1] at he
      by_cases h2 : inp.mouse2
      · rw [if_pos h2] at he
        simp at he
        rw [he, forceStep_type]
        rfl
      · rw [if_neg h2] at he
        simp at he
  · intro h1
    refine ⟨by
      unfold processInput
      rw [List.length_map, spawnStep_length_of_mouse1 inp es h1], ?_⟩
    intro e he
    rw [hdrop, if_pos h1] at he
    simp at he
    rw [he, forceStep_kinematic]
    rfl

/-- Witness for C10: both buttons pressed on an empty collection. -/
theorem C10_input_spawns_circles_witness :
    (∀ e ∈ (processInput bothClick ([] : List Entity)).drop ([] : List Entity).length,
      e.type = EntityType.CIRCLE) ∧
    (bothClick.mouse1 = true →
      (processInput bothClick ([] : List Entity)).length = ([] : List Entity).length + 1 ∧
      ∀ e ∈ (processInput bothClick ([] : List Entity)).drop ([] : List Entity).length,
        e.kinematic = false) :=
  C10_input_spawns_circles bothClick []

/-- C8: the seeded scene contains exactly three entities — one box followed
by two circles — all non-kinematic, positioned from the pseudo-random
stream. -/
theorem C8_seeded_scene (r : ℕ → ℕ) :
    (seedEntities r).length = 3 ∧
    (seedEntities r).map Entity.type =
      [EntityType.BOX, EntityType.CIRCLE, EntityType.CIRCLE] ∧
    ∀ e ∈ seedEntities r, e.kinematic = false := by
  refine ⟨rfl, rfl, ?_⟩
  intro e he
  simp [seedEntities] at he
  rcases he with h | h | h <;> rw [h] <;> rfl

/-- C5: the simulation is a deterministic function of the tick count, the
per-tick input/oracle streams and the initial entity collection: any two
runs over the same data yield identical final positions. -/
theorem C5_fixed_seed_determinism (n : ℕ) (inps : ℕ → Input) (orcs : ℕ → Oracle)
    (es out1 out2 : List Entity)
    (h1 : out1 = runSimulation n inps orcs es)
    (h2 : out2 = runSimulation n inps orcs es) :
    finalPositions out1 = finalPositions out2 := by
  rw [h1, h2]

theorem kinPres_refl (es : List Entity) : KinPres es es :=
  fun _ e h hk => ⟨e, h, rfl, rfl, hk⟩

theorem kinPres_trans {a b c : List Entity} (h1 : KinPres a b) (h2 : KinPres b c) :
    KinPres a c := by
  intro i e h hk
  obtain ⟨e1, hb, hp1, hv1, hk1⟩ := h1 i e h hk
  obtain ⟨e2, hc, hp2, hv2, hk2⟩ := h2 i e1 hb hk1
  exact ⟨e2, hc, hp2.trans hp1, hv2.trans hv1, hk2⟩

/-- A kinematic first entity has zero inverse mass, so resolution moves
neither its position (zero positional-correction share) nor its velocity
(zero impulse share). -/
theorem resolvePair_fst_of_kin (nrm : Vector2) (d : ℚ) (a b : Entity)
    (h : a.kinematic = true) :
    ((resolvePair nrm d a b).1).position = a.position ∧
    ((resolvePair nrm d a b).1).velocity = a.velocity ∧
    ((resolvePair nrm d a b).1).kinematic = true := by
  have hA : invMass a = 0 := by simp [invMass, h]
  simp only [resolvePair, hA, mul_zero, zero_mul, zero_div, zero_add,
    Vector2.scale_zero, Vector2.sub_zero', Vector2.add_zero']
  split
  · exact ⟨rfl, rfl, h⟩
  · split
    · exact ⟨rfl, rfl, h⟩
    · exact ⟨rfl, rfl, h⟩

/-- A kinematic second entity has zero inverse mass, so resolution moves
neither its position nor its velocity. -/
theorem resolvePair_snd_of_kin (nrm : Vector2) (d : ℚ) (a b : Entity)
    (h : b.kinematic = true) :
    ((resolvePair nrm d a b).2).position = b.position ∧
    ((resolvePair nrm d a b).2).velocity = b.velocity ∧
    ((resolvePair nrm d a b).2).kinematic = true := by
  have hB : invMass b = 0 := by simp [invMass, h]
  simp only [resolvePair, hB, mul_zero, zero_mul, zero_div, zero_add,
    Vector2.scale_zero, Vector2.sub_zero', Vector2.add_zero']
  split
  · exact ⟨rfl, rfl, h⟩
  · split
    · exact ⟨rfl, rfl, h⟩
    · exact ⟨rfl, rfl, h⟩

theorem collideOne_kinPres (orc : Oracle) (i j : ℕ) (es : List Entity) :
    KinPres es (collideOne orc i j es) := by
  intro k e hk hkin
  simp only [collideOne]
  split
  · exact ⟨e, hk, rfl, rfl, hkin⟩
  next hij =>
    split
    next a b hi hj =>
      split
      next hcol =>
        have hilen : i < es.length := by
          by_contra hge
          rw [List.getElem?_eq_none (by omega)] at hi
          exact Option.noConfusion hi
        have hjlen : j < es.length := by
          by_contra hge
          rw [List.getElem?_eq_none (by omega)] at hj
          exact Option.noConfusion hj
        by_cases hki : k = i
        · subst hki
          obtain rfl : a = e := by
            rw [hi] at hk
            exact Option.some.inj hk
          obtain ⟨hp, hv, hkk⟩ :=
            resolvePair_fst_of_kin (orc k j).1 (orc k j).2 a b hkin
          refine ⟨_, ?_, hp, hv, hkk⟩
          rw [List.getElem?_set_ne (fun hh => hij hh.symm),
            List.getElem?_set_self hilen]
        · by_cases hkj : k = j
          · subst hkj
            obtain rfl : b = e := by
              rw [hj] at hk
              exact Option.some.inj hk
            obtain ⟨hp, hv, hkk⟩ :=
              resolvePair_snd_of_kin (orc i k).1 (orc i k).2 a b hkin
            refine ⟨_, ?_, hp, hv, hkk⟩
            rw [List.getElem?_set_self (by rw [List.length_set]; exact hjlen)]
          · refine ⟨e, ?_, rfl, rfl, hkin⟩
            rw [List.getElem?_set_ne (fun hh => hkj hh.symm),
              List.getElem?_set_ne (fun hh => hki hh.symm)]
            exact hk
      next => exact ⟨e, hk, rfl, rfl, hkin⟩
    next => exact ⟨e, hk, rfl, rfl, hkin⟩

theorem innerLoop_kinPres (orc : Oracle) (i : ℕ) :
    ∀ (n : ℕ) (es : List Entity), KinPres es (innerLoop orc i n es)
  | 0, es => kinPres_refl es
  | n + 1, es =>
      kinPres_trans (innerLoop_kinPres orc i n es)
        (collideOne_kinPres orc i n (innerLoop orc i n es))

theorem outerLoop_kinPres (orc : Oracle) :
    ∀ (n : ℕ) (es : List Entity), KinPres es (outerLoop orc n es)
  | 0, es => kinPres_refl es
  | n + 1, es =>
      kinPres_trans (outerLoop_kinPres orc n es)
        (innerLoop_kinPres orc n (outerLoop orc n es).length (outerLoop orc n es))

theorem collidePhase_kinPres (orc : Oracle) (es : List Entity) :
    KinPres es (collidePhase orc es) :=
  outerLoop_kinPres orc es.length es

theorem update_of_kin (e : Entity) (h : e.kinematic = true) : update e = e := by
  simp [update, h]

theorem updateAll_kinPres (es : List Entity) : KinPres es (es.map update) := by
  intro i e h hk
  refine ⟨e, ?_, rfl, rfl, hk⟩
  rw [List.getElem?_map, h]
  show some (update e) = some e
  rw [update_of_kin e hk]

theorem processInput_kinPres (inp : Input) (es : List Entity) :
    KinPres es (processInput inp es) := by
  intro i e h hk
  refine ⟨forceStep inp e, processInput_getElem inp es i e h, ?_, ?_, ?_⟩
  · exact forceStep_position inp e
  · exact forceStep_velocity inp e
  · rw [forceStep_kinematic]
    exact hk

theorem tick_kinPres (inp : Input) (orc : Oracle) (es : List Entity) :
    KinPres es (tick inp orc es) :=
  kinPres_trans (processInput_kinPres inp es)
    (kinPres_trans (updateAll_kinPres (processInput inp es))
      (collidePhase_kinPres orc ((processInput inp es).map update)))

theorem runTicksFrom_kinPres (inps : ℕ → Input) (orcs : ℕ → Oracle) :
    ∀ (n t : ℕ) (es : List Entity), KinPres es (runTicksFrom inps orcs t n es)
  | 0, _, es => kinPres_refl es
  | n + 1, t, es =>
      kinPres_trans (tick_kinPres (inps t) (orcs t) es)
        (runTicksFrom_kinPres inps orcs n (t + 1) (tick (inps t) (orcs t) es))

/-- C2: a kinematic entity's position and velocity are invariant across any
number of full ticks (input-driven force accumulation, integration, and
collision resolution with arbitrary per-pair normals and depths), and it
stays kinematic. -/
theorem C2_kinematic_invariant (n : ℕ) (inps : ℕ → Input) (orcs : ℕ → Oracle)
    (es : List Entity) (i : ℕ) (e : Entity) (h : es[i]? = some e)
    (hk : e.kinematic = true) :
    ∃ e', (runSimulation n inps orcs es)[i]? = some e' ∧
      e'.position = e.position ∧ e'.velocity = e.velocity ∧
      e'.kinematic = true :=
  runTicksFrom_kinPres inps orcs n 0 es i e h hk

/-- Witness for C2: three ticks over a collection holding one kinematic
circle. -/
theorem C2_kinematic_invariant_witness :
    ∃ e', (runSimulation 3 (fun _ => Input.none) (fun _ => zeroOracle) [kinAnchor])[0]? = some e' ∧
      e'.position = kinAnchor.position ∧ e'.velocity = kinAnchor.velocity ∧
      e'.kinematic = true :=
  C2_kinematic_invariant 3 (fun _ => Input.none) (fun _ => zeroOracle) [kinAnchor] 0
    kinAnchor rfl rfl

/-- Closed form of the fixed-timestep while loop: starting from accumulator
`acc`, exactly `⌊acc⌋` (clamped at zero) full ticks run, and `⌊acc⌋` is
subtracted from the accumulator. -/
theorem simLoop_closed (inps : ℕ → Input) (orcs : ℕ → Oracle) :
    ∀ (n : ℕ) (acc : ℚ), (⌊acc⌋).toNat = n → ∀ (t : ℕ) (es : List Entity),
      simLoop inps orcs t es acc =
        (runTicksFrom inps orcs t n es, t + n, acc - (n : ℚ)) := by
  intro n
  induction n with
  | zero =>
      intro acc hn t es
      have hlt : ¬ 1 ≤ acc := by
        intro hge
        have h1 : (1 : ℤ) ≤ ⌊acc⌋ := Int.le_floor.mpr (by exact_mod_cast hge)
        omega
      rw [simLoop, dif_neg hlt]
      simp [runTicksFrom]
  | succ m ih =>
      intro acc hn t es
      have h1 : (1 : ℤ) ≤ ⌊acc⌋ := by omega
      have hge : (1 : ℚ) ≤ acc := by exact_mod_cast Int.le_floor.mp h1
      have hfloor : ⌊acc - 1⌋ = ⌊acc⌋ - 1 := by exact_mod_cast Int.floor_sub_int acc 1
      have hn' : (⌊acc - 1⌋).toNat = m := by omega
      rw [simLoop, dif_pos hge, ih (acc - 1) hn' (t + 1) (tick (inps t) (orcs t) es)]
      simp only [runTicksFrom, Prod.mk.injEq]
      refine ⟨?_, ?_, ?_⟩ <;> first
        | trivial
        | omega
        | (push_cast; ring)

/-- C1: each frame adds elapsed wall time times `TICKS_PER_SECOND` to the
accumulator, then consumes exactly one full tick (input forces, `Update` on
every entity, then `CheckCollisions` once per entity over the whole
collection — the content of `tick`) per unit of accumulator, decrementing it
by 1 each time: the frame runs precisely `⌊acc + dt·TPS⌋` ticks and leaves
that amount subtracted from the accumulator. -/
theorem C1_fixed_timestep (inps : ℕ → Input) (orcs : ℕ → Oracle)
    (dt acc : ℚ) (t : ℕ) (es : List Entity) :
    frameStep inps orcs dt acc t es =
      (runTicksFrom inps orcs t ((⌊acc + dt * TICKS_PER_SECOND⌋).toNat) es,
       t + (⌊acc + dt * TICKS_PER_SECOND⌋).toNat,
       acc + dt * TICKS_PER_SECOND - (((⌊acc + dt * TICKS_PER_SECOND⌋).toNat : ℕ) : ℚ)) :=
  simLoop_closed inps orcs _ _ rfl t es

/-- C4: the circle-circle test reports a collision iff the center distance
`d` is strictly below the sum of the radii; at exact equality the pair is
reported as not colliding. -/
theorem C4_circle_circle (p1 p2 : Vector2) (r1 r2 d : ℚ)
    (hd : 0 ≤ d) (hr : 0 ≤ r1 + r2) (hdist : d * d = Vector2.dist2 p1 p2) :
    (collides { mkCircle p1 with radius := r1 } { mkCircle p2 with radius := r2 } = true
      ↔ d < r1 + r2) ∧
    (d = r1 + r2 →
      collides { mkCircle p1 with radius := r1 } { mkCircle p2 with radius := r2 } = false) := by
  have hcc : collides { mkCircle p1 with radius := r1 } { mkCircle p2 with radius := r2 } =
      decide (Vector2.dist2 p1 p2 < (r1 + r2) ^ 2) := rfl
  rw [hcc]
  constructor
  · rw [decide_eq_true_iff, ← hdist]
    constructor
    · intro hlt
      nlinarith
    · intro hlt
      nlinarith
  · intro heq
    rw [decide_eq_false_iff_not, ← hdist, heq]
    simp [pow_two]

/-- Witness for C4: circles of radius 1 at distance 3 do not collide. -/
theorem C4_circle_circle_witness :
    (collides { mkCircle ⟨0, 0⟩ with radius := 1 } { mkCircle ⟨0, 3⟩ with radius := 1 } = true
      ↔ (3 : ℚ) < 1 + 1) ∧
    ((3 : ℚ) = 1 + 1 →
      collides { mkCircle ⟨0, 0⟩ with radius := 1 } { mkCircle ⟨0, 3⟩ with radius := 1 } = false) :=
  C4_circle_circle ⟨0, 0⟩ ⟨0, 3⟩ 1 1 3 (by norm_num) (by norm_num)
    (by norm_num [Vector2.dist2])

/-- Witness for C5: two one-tick runs over a singleton collection. -/
theorem C5_fixed_seed_determinism_witness :
    finalPositions (runSimulation 1 (fun _ => Input.none) (fun _ => zeroOracle) [freeBall]) =
      finalPositions (runSimulation 1 (fun _ => Input.none) (fun _ => zeroOracle) [freeBall]) :=
  C5_fixed_seed_determinism 1 (fun _ => Input.none) (fun _ => zeroOracle) [freeBall]
    (runSimulation 1 (fun _ => Input.none) (fun _ => zeroOracle) [freeBall])
    (runSimulation 1 (fun _ => Input.none) (fun _ => zeroOracle) [freeBall]) rfl rfl

end ParticleSim
